import Mathlib

/-!
Verification of `migrate.py` (WordPress → microCMS migration).

The Python source is shallowly embedded: XML elements become an `Elem`
structure carrying the optional `.text`, an `item` node becomes an `Item`
recording which sub-elements are present, the per-item dictionary built by
`parse_wordpress_xml` becomes the `Post` structure, and the network /
clock / console side effects of `upload_to_microcms` become an explicit
`Event` trace.  Fallible Python code (attribute errors on missing
elements, configuration validation, top-level exception handling) is
modelled with `Except`.
-/

/-- An XML element as seen through `xml.etree.ElementTree`: only its
`.text` attribute matters to `migrate.py`; `.text` is `None` for an
element with no character data. -/
structure Elem where
  text : Option String
deriving DecidableEq

/-- One `<item>` node of the export document, recording exactly the
sub-elements `parse_wordpress_xml` looks up.  A field is `none` when
`item.find(...)` would return `None` (element absent); the `category`
lists hold the elements returned by the two `findall` queries, in
document order. -/
structure Item where
  post_type : Option Elem
  status : Option Elem
  title : Option Elem
  content_encoded : Option Elem
  post_date : Option Elem
  cat_category : List Elem
  cat_post_tag : List Elem
deriving DecidableEq

/-- The per-article dictionary built at lines 75-81 of `migrate.py`. -/
structure Post where
  title : Option String
  content : Option String
  date : Option String
  categories : List (Option String)
  tags : List (Option String)
deriving DecidableEq

/-- The filter at line 74: `post_type is not None and post_type.text ==
'post' and status is not None and status.text == 'publish'`. -/
def isTarget (it : Item) : Bool :=
  match it.post_type, it.status with
  | some t, some s => t.text == some "post" && s.text == some "publish"
  | _, _ => false

/-- Models the Python idiom `item.find(...).text`: when the element is
absent, `find` returns `None` and the `.text` access raises an
`AttributeError`; otherwise it yields the element's optional text. -/
def elemText : Option Elem → Except String (Option String)
  | none => Except.error "AttributeError: NoneType object has no attribute text"
  | some e => Except.ok e.text

/-- The dictionary constructor at lines 75-81: extracts title, body
content and date (raising if the element is missing), and the category /
tag label lists. -/
def makePost (it : Item) : Except String Post :=
  match elemText it.title with
  | Except.error e => Except.error e
  | Except.ok t =>
    match elemText it.content_encoded with
    | Except.error e => Except.error e
    | Except.ok c =>
      match elemText it.post_date with
      | Except.error e => Except.error e
      | Except.ok d =>
        Except.ok { title := t, content := c, date := d,
                    categories := it.cat_category.map Elem.text,
                    tags := it.cat_post_tag.map Elem.text }

/-- `WPToMicroCMSMigration.parse_wordpress_xml`, lines 58-84: walk the
items in document order, keep those passing `isTarget`, build a `Post`
for each (an `AttributeError` aborts the whole parse). -/
def parse_wordpress_xml : List Item → Except String (List Post)
  | [] => Except.ok []
  | it :: rest =>
    if isTarget it then
      match makePost it, parse_wordpress_xml rest with
      | Except.error e, _ => Except.error e
      | Except.ok _, Except.error e => Except.error e
      | Except.ok p, Except.ok ps => Except.ok (p :: ps)
    else parse_wordpress_xml rest

/-- The filter predicate as the specification words it ("status marker
equals \"published\""), kept separate from `isTarget` (translated from
the source, which compares against `'publish'`) so the two can be
compared. -/
def specPublishedFilter (it : Item) : Bool :=
  match it.post_type, it.status with
  | some t, some s => t.text == some "post" && s.text == some "published"
  | _, _ => false

/-- Helper to build a present element with the given text. -/
def elemOf (s : String) : Elem := { text := some s }

/-- A well-formed item whose status marker reads literally `"published"`.
WordPress exports write `publish`, and line 74 of the source compares
against `'publish'`, so this item is dropped by the code. -/
def itemPublished : Item :=
  { post_type := some (elemOf "post"), status := some (elemOf "published"),
    title := some (elemOf "Hello"), content_encoded := some (elemOf "<p>hi</p>"),
    post_date := some (elemOf "2024-01-01 00:00:00"),
    cat_category := [], cat_post_tag := [] }

/-- A well-formed published post item (status marker `publish`). -/
def itemPublish : Item :=
  { post_type := some (elemOf "post"), status := some (elemOf "publish"),
    title := some (elemOf "Hello"), content_encoded := some (elemOf "<p>hi</p>"),
    post_date := some (elemOf "2024-01-01 00:00:00"),
    cat_category := [elemOf "news"], cat_post_tag := [elemOf "tech"] }

/-- A draft item: right type marker, status `draft`. -/
def itemDraft : Item :=
  { post_type := some (elemOf "post"), status := some (elemOf "draft"),
    title := some (elemOf "Draft"), content_encoded := some (elemOf "wip"),
    post_date := some (elemOf "2024-01-02 00:00:00"),
    cat_category := [], cat_post_tag := [] }

/-- An item of type `post` whose status element is missing entirely. -/
def itemNoStatus : Item :=
  { post_type := some (elemOf "post"), status := none,
    title := some (elemOf "NoStatus"), content_encoded := some (elemOf "x"),
    post_date := some (elemOf "2024-01-03 00:00:00"),
    cat_category := [], cat_post_tag := [] }

/-- A published post item whose `content:encoded` element is missing. -/
def itemNoContent : Item :=
  { post_type := some (elemOf "post"), status := some (elemOf "publish"),
    title := some (elemOf "Broken"), content_encoded := none,
    post_date := some (elemOf "2024-01-04 00:00:00"),
    cat_category := [], cat_post_tag := [] }

/-- C1 (counterexample): the claim's filter says status marker
`"published"`.  On a document with one well-formed item whose status
marker is literally `published`, the code returns no records, yet the
claim's predicate counts one item, so the claimed output/input
correspondence fails. -/
theorem C1_counterexample :
    parse_wordpress_xml [itemPublished] = Except.ok [] ∧
    ([itemPublished].filter specPublishedFilter).length = 1 := by
  exact ⟨rfl, rfl⟩

/-- C1 (amended: the status marker compared against is `"publish"`, as on
line 74, not `"published"`): a successful parse returns exactly one
record per item passing `isTarget`, in document order — `Forall₂` pairs
the filtered items with the output records positionally — and the output
length equals the number of items passing the filter. -/
theorem C1_amended (doc : List Item) : ∀ posts : List Post,
    parse_wordpress_xml doc = Except.ok posts →
    List.Forall₂ (fun it p => makePost it = Except.ok p)
      (doc.filter (fun it => isTarget it)) posts ∧
    posts.length = (doc.filter (fun it => isTarget it)).length := by
  induction doc with
  | nil =>
    intro posts h
    simp only [parse_wordpress_xml] at h
    cases h
    exact ⟨List.Forall₂.nil, rfl⟩
  | cons it rest ih =>
    intro posts h
    by_cases ht : isTarget it
    · simp only [parse_wordpress_xml, ht, if_true] at h
      cases hm : makePost it with
      | error e => rw [hm] at h; cases h
      | ok p =>
        cases hp : parse_wordpress_xml rest with
        | error e => rw [hm, hp] at h; cases h
        | ok ps =>
          rw [hm, hp] at h
          cases h
          obtain ⟨hf, hl⟩ := ih ps hp
          have hfc : (it :: rest).filter (fun it => isTarget it) =
              it :: rest.filter (fun it => isTarget it) := by
            simp [List.filter_cons, ht]
          refine ⟨?_, ?_⟩
          · rw [hfc]
            exact List.Forall₂.cons hm hf
          · simp [hfc, hl]
    · simp only [parse_wordpress_xml, ht, if_false] at h
      obtain ⟨hf, hl⟩ := ih posts h
      constructor
      · simpa [List.filter_cons, ht] using hf
      · simp [List.filter_cons, ht, hl]

/-- C1 (witness): the amended theorem applied to a concrete document with
one published post and one draft. -/
theorem C1_witness :
    List.Forall₂ (fun it p => makePost it = Except.ok p)
      ([itemPublish, itemDraft].filter (fun it => isTarget it))
      [{ title := some "Hello", content := some "<p>hi</p>",
         date := some "2024-01-01 00:00:00",
         categories := [some "news"], tags := [some "tech"] }] ∧
    ([{ title := some "Hello", content := some "<p>hi</p>",
        date := some "2024-01-01 00:00:00",
        categories := [some "news"], tags := [some "tech"] }] : List Post).length =
      ([itemPublish, itemDraft].filter (fun it => isTarget it)).length :=
  C1_amended [itemPublish, itemDraft] _ rfl

/-- C4 (counterexample): an item of type `post` with no status element is
silently skipped by `parse_wordpress_xml` — the parse succeeds with an
empty output and no error is raised, contradicting the claimed hard
failure. -/
theorem C4_counterexample :
    itemNoStatus.status = none ∧
    parse_wordpress_xml [itemNoStatus] = Except.ok [] := by
  exact ⟨rfl, rfl⟩

/-- C4 (amended): an item whose type marker or status marker element is
missing fails the `is not None` guards on line 74 and is silently
skipped: it never passes the filter, and parsing a document starting with
such an item behaves exactly as parsing the rest — no error, no record. -/
theorem C4_amended (it : Item) (rest : List Item)
    (h : it.post_type = none ∨ it.status = none) :
    isTarget it = false ∧
    parse_wordpress_xml (it :: rest) = parse_wordpress_xml rest := by
  have hft : isTarget it = false := by
    cases h with
    | inl h1 => simp [isTarget, h1]
    | inr h2 =>
      cases hpt : it.post_type with
      | none => simp [isTarget, hpt]
      | some t => simp [isTarget, hpt, h2]
  refine ⟨hft, ?_⟩
  simp [parse_wordpress_xml, hft]

/-- C4 (witness): the amended theorem at the concrete status-less item. -/
theorem C4_witness :
    isTarget itemNoStatus = false ∧
    parse_wordpress_xml (itemNoStatus :: [itemPublish]) =
      parse_wordpress_xml [itemPublish] :=
  C4_amended itemNoStatus [itemPublish] (Or.inr rfl)

/-- Model of the Python standard library `html.unescape` used by
`clean_content`, restricted to the four predefined named character
references (`amp`, `lt`, `gt`, `quot`).  The theorems below either hold
for an arbitrary decoder (they assume the input is already decoded) or
exercise only these entities. -/
def unescapeChars : List Char → List Char
  | '&' :: 'a' :: 'm' :: 'p' :: ';' :: rest => '&' :: unescapeChars rest
  | '&' :: 'l' :: 't' :: ';' :: rest => '<' :: unescapeChars rest
  | '&' :: 'g' :: 't' :: ';' :: rest => '>' :: unescapeChars rest
  | '&' :: 'q' :: 'u' :: 'o' :: 't' :: ';' :: rest => '"' :: unescapeChars rest
  | c :: rest => c :: unescapeChars rest
  | [] => []

/-- `html.unescape` on strings (see `unescapeChars`). -/
def html_unescape (s : String) : String := String.mk (unescapeChars s.data)

/-- `WPToMicroCMSMigration.clean_content`, lines 86-90: `if content:
content = html.unescape(content)` — `None` and the empty string are
falsy and pass through unchanged. -/
def clean_content : Option String → Option String
  | none => none
  | some s => if s == "" then some s else some (html_unescape s)

/-- `x` is already decoded: absent, or a string the entity decoder leaves
unchanged. -/
def decodedAlready : Option String → Bool
  | none => true
  | some s => html_unescape s == s

/-- C6: the Normalizer decodes entities in present body text
(`"A &amp; B"` becomes `"A & B"`), is the identity on absent input, and
is idempotent on any input that is already decoded. -/
theorem C6_normalizer :
    clean_content (some "A &amp; B") = some "A & B" ∧
    clean_content none = none ∧
    ∀ x : Option String, decodedAlready x = true →
      clean_content (clean_content x) = clean_content x := by
  refine ⟨by decide, rfl, ?_⟩
  intro x hx
  cases x with
  | none => rfl
  | some s =>
    have hs : html_unescape s = s := by
      simpa [decodedAlready] using hx
    by_cases he : s = ""
    · simp [clean_content, he]
    · have hne : (s == "") = false := by
        simpa [beq_iff_eq] using he
      simp [clean_content, hne, hs]

/-- C6 (witness): idempotence at the concrete already-decoded input
`some "abc"`. -/
theorem C6_witness :
    clean_content (clean_content (some "abc")) = clean_content (some "abc") :=
  C6_normalizer.2.2 (some "abc") (by decide)

/-- The request payload built at lines 99-105: the dictionary literal has
exactly the keys `title` and `body` (the `publishedAt`, `categories` and
`tags` lines are commented out in the source). -/
def buildData (p : Post) : List (String × Option String) :=
  [("title", p.title), ("body", clean_content p.content)]

/-- C7: the payload of every record is exactly
`[("title", record.title), ("body", clean_content record.content)]` —
its key list is `["title", "body"]` — and it depends only on the
record's title and content: two records agreeing on those two fields get
identical payloads no matter how their date, categories and tags differ. -/
theorem C7_payload :
    (∀ p : Post, buildData p = [("title", p.title), ("body", clean_content p.content)] ∧
      (buildData p).map Prod.fst = ["title", "body"]) ∧
    (∀ p q : Post, p.title = q.title → p.content = q.content →
      buildData p = buildData q) := by
  refine ⟨fun p => ⟨rfl, rfl⟩, fun p q h1 h2 => ?_⟩
  simp [buildData, h1, h2]

/-- A record with date, categories and tags populated. -/
def recA : Post :=
  { title := some "T", content := some "C",
    date := some "2024-01-01 00:00:00",
    categories := [some "news"], tags := [some "tech"] }

/-- Same title and content as `recA`, entirely different date,
categories and tags. -/
def recB : Post :=
  { title := some "T", content := some "C",
    date := some "1999-12-31 23:59:59",
    categories := [], tags := [some "other", none] }

/-- C7 (witness): two records differing only in date, categories and tags
produce the same payload. -/
theorem C7_witness : buildData recA = buildData recB :=
  C7_payload.2 recA recB rfl rfl

/-- The configuration a constructed `WPToMicroCMSMigration` object
carries into `upload_to_microcms`: the content API endpoint built at
line 26 and the header dictionary built at lines 30-33. -/
structure Config where
  api_endpoint : String
  headers : List (String × String)
deriving DecidableEq

/-- What `requests.post` does for one record: either it returns a
response (status code and body text), or it raises a transport-level
exception carrying a message. -/
inductive UploadOutcome
  | resp (code : Nat) (body : String)
  | exc (msg : String)
deriving DecidableEq

/-- `o.isResp` holds when the upload call returned an HTTP response
rather than raising. -/
def UploadOutcome.isResp : UploadOutcome → Bool
  | .resp _ _ => true
  | .exc _ => false

/-- The observable side effects of the Driver: an HTTP POST (url,
headers, JSON body), a `time.sleep`, or a `print`. -/
inductive Event
  | httpPost (url : String) (headers : List (String × String))
      (body : List (String × Option String))
  | sleepSec (n : Nat)
  | println (s : String)
deriving DecidableEq

/-- `e.isHttpPost` holds when the event is a network request. -/
def Event.isHttpPost : Event → Bool
  | .httpPost _ _ _ => true
  | _ => false

/-- Python `f"...{x}..."` rendering of an optional string (`None` prints
as `None`). -/
def pyStr : Option String → String
  | none => "None"
  | some s => s

/-- One iteration of the loop at lines 97-125 of `upload_to_microcms`,
given the outcome of the `requests.post` call: returns the increments to
`success_count` and `failed_count` and the emitted events.  On a
response, status 201 counts as success, anything else as failure with
the response body printed, and `time.sleep(1)` runs; on an exception the
`except` block catches it, counts a failure and prints — control leaves
the `try` before reaching `time.sleep(1)`. -/
def uploadStep (cfg : Config) (p : Post) (o : UploadOutcome) :
    Nat × Nat × List Event :=
  match o with
  | .resp code body =>
    if code = 201 then
      (1, 0, [Event.httpPost cfg.api_endpoint cfg.headers (buildData p),
              Event.println ("記事をアップロードしました: " ++ pyStr p.title),
              Event.sleepSec 1])
    else
      (0, 1, [Event.httpPost cfg.api_endpoint cfg.headers (buildData p),
              Event.println ("記事のアップロードに失敗: " ++ pyStr p.title),
              Event.println ("エラー: " ++ body),
              Event.sleepSec 1])
  | .exc msg =>
    (0, 1, [Event.httpPost cfg.api_endpoint cfg.headers (buildData p),
            Event.println ("記事のアップロードでエラー " ++ pyStr p.title ++ ": " ++ msg)])

/-- `WPToMicroCMSMigration.upload_to_microcms`, lines 92-127: fold the
per-record steps over the record sequence (each record paired with its
upload outcome), accumulating the two counters and the event trace in
order.  Returns `(success_count, failed_count, events)`. -/
def upload_to_microcms (cfg : Config) :
    List (Post × UploadOutcome) → Nat × Nat × List Event
  | [] => (0, 0, [])
  | r :: rest =>
    ((uploadStep cfg r.1 r.2).1 + (upload_to_microcms cfg rest).1,
     (uploadStep cfg r.1 r.2).2.1 + (upload_to_microcms cfg rest).2.1,
     (uploadStep cfg r.1 r.2).2.2 ++ (upload_to_microcms cfg rest).2.2)

/-- Every single step increments exactly one of the two counters by
exactly one. -/
theorem uploadStep_counts (cfg : Config) (p : Post) (o : UploadOutcome) :
    (uploadStep cfg p o).1 + (uploadStep cfg p o).2.1 = 1 := by
  cases o with
  | resp code body =>
    by_cases h : code = 201 <;> simp [uploadStep, h]
  | exc msg => simp [uploadStep]

/-- C2: for every record sequence and every pattern of per-record
outcomes (201, other status, or raised fault), the Driver's returned
counters satisfy `success_count + failed_count = number of records`. -/
theorem C2_counts (cfg : Config) (rs : List (Post × UploadOutcome)) :
    (upload_to_microcms cfg rs).1 + (upload_to_microcms cfg rs).2.1 = rs.length := by
  induction rs with
  | nil => rfl
  | cons r rest ih =>
    have h1 := uploadStep_counts cfg r.1 r.2
    simp only [upload_to_microcms, List.length_cons]
    omega

/-- Processing a concatenation of record sequences adds the counters and
concatenates the traces: the loop has no cross-record state beyond the
two counters. -/
theorem upload_to_microcms_append (cfg : Config)
    (a b : List (Post × UploadOutcome)) :
    upload_to_microcms cfg (a ++ b) =
      ((upload_to_microcms cfg a).1 + (upload_to_microcms cfg b).1,
       (upload_to_microcms cfg a).2.1 + (upload_to_microcms cfg b).2.1,
       (upload_to_microcms cfg a).2.2 ++ (upload_to_microcms cfg b).2.2) := by
  induction a with
  | nil => simp [upload_to_microcms]
  | cons r rest ih =>
    simp [upload_to_microcms, ih, Nat.add_assoc, List.append_assoc]

/-- C3: a transport fault on one record is absorbed in that record's own
step: the record counts as one failure (and zero successes), while the
records before and after it contribute exactly what they would
contribute on their own — their counters and event traces are
unchanged, so the fault neither aborts the run nor propagates past the
per-record step. -/
theorem C3_fault_isolation (cfg : Config)
    (pre suf : List (Post × UploadOutcome)) (p : Post) (m : String) :
    (uploadStep cfg p (UploadOutcome.exc m)).1 = 0 ∧
    (uploadStep cfg p (UploadOutcome.exc m)).2.1 = 1 ∧
    upload_to_microcms cfg (pre ++ (p, UploadOutcome.exc m) :: suf) =
      ((upload_to_microcms cfg pre).1 + (upload_to_microcms cfg suf).1,
       (upload_to_microcms cfg pre).2.1 + (1 + (upload_to_microcms cfg suf).2.1),
       (upload_to_microcms cfg pre).2.2 ++
         ((uploadStep cfg p (UploadOutcome.exc m)).2.2 ++
           (upload_to_microcms cfg suf).2.2)) := by
  refine ⟨rfl, rfl, ?_⟩
  rw [upload_to_microcms_append]
  simp [upload_to_microcms, uploadStep]

/-- C5 (counterexample): a record whose upload raises a transport fault
produces no `time.sleep(1)` event at all — the sleep at line 121 sits
inside the `try`, after the network call, so the exception path skips
it, contradicting the claimed pause "regardless of outcome". -/
theorem C5_counterexample :
    ¬ Event.sleepSec 1 ∈
      (upload_to_microcms
        { api_endpoint := "https://example.microcms.io/api/v1/articles",
          headers := [("X-MICROCMS-API-KEY", "secret-key"),
                      ("Content-Type", "application/json")] }
        [(recA, UploadOutcome.exc "ConnectionError")]).2.2 := by
  decide

/-- C5 (amended): the Driver sleeps one time unit exactly once per record
whose upload call returned an HTTP response (201 or any other status),
as the last action of that record's step; a record whose upload raised a
caught transport fault contributes no sleep.  Hence the number of sleep
events equals the number of response-returning records, not the number
of records. -/
theorem C5_amended (cfg : Config) :
    (∀ rs : List (Post × UploadOutcome),
      ((upload_to_microcms cfg rs).2.2).count (Event.sleepSec 1) =
        (rs.filter (fun r => r.2.isResp)).length) ∧
    (∀ p c b, ((uploadStep cfg p (UploadOutcome.resp c b)).2.2).getLast? =
      some (Event.sleepSec 1)) ∧
    (∀ p m, ((uploadStep cfg p (UploadOutcome.exc m)).2.2).count
      (Event.sleepSec 1) = 0) := by
  refine ⟨?_, ?_, ?_⟩
  · intro rs
    induction rs with
    | nil => rfl
    | cons r rest ih =>
      have hstep : ((uploadStep cfg r.1 r.2).2.2).count (Event.sleepSec 1) =
          if r.2.isResp then 1 else 0 := by
        cases h : r.2 with
        | resp c b =>
          by_cases hc : c = 201 <;>
            simp [uploadStep, hc, UploadOutcome.isResp, List.count_cons]
        | exc m => simp [uploadStep, UploadOutcome.isResp, List.count_cons]
      by_cases hr : r.2.isResp <;>
        simp [upload_to_microcms, List.count_append, hstep, hr,
          List.filter_cons, ih, Nat.add_comm]
  · intro p c b
    by_cases hc : c = 201 <;> simp [uploadStep, hc]
  · intro p m
    simp [uploadStep, List.count_cons]

/-- The five environment variables `_validate_config` requires, in the
order of the `required_vars` dictionary at lines 41-47. -/
def requiredKeys : List String :=
  ["WP_XML_FILE", "MICROCMS_DOMAIN", "MICROCMS_API_KEY",
   "MICROCMS_CONTENT_API_PATH", "MICROCMS_MEDIA_API_PATH"]

/-- Python truthiness of an optional environment value, as used by
`if not value` on line 49: absent or empty strings are falsy. -/
def pyTruthy : Option String → Bool
  | none => false
  | some s => !(s == "")

/-- `WPToMicroCMSMigration.__init__` together with `_validate_config`,
lines 17-56: read the environment, then fail if any required variable is
falsy (naming the missing ones), then fail if the export file does not
exist, and otherwise yield the configuration the object carries — the
content API endpoint `https://{domain}{path}` of line 26 and the header
dictionary of lines 30-33. -/
def initMigrator (env : String → Option String) (fex : String → Bool) :
    Except String Config :=
  let missing := requiredKeys.filter (fun k => !pyTruthy (env k))
  if missing = [] then
    if fex ((env "WP_XML_FILE").getD "") then
      Except.ok
        { api_endpoint := "https://" ++ (env "MICROCMS_DOMAIN").getD "" ++
            (env "MICROCMS_CONTENT_API_PATH").getD "",
          headers := [("X-MICROCMS-API-KEY", (env "MICROCMS_API_KEY").getD ""),
                      ("Content-Type", "application/json")] }
    else
      Except.error ("指定されたXMLファイルが見つかりません: " ++
        (env "WP_XML_FILE").getD "")
  else
    Except.error ("必要な環境変数が設定されていません: " ++
      String.intercalate ", " missing)

/-- `WPToMicroCMSMigration.migrate`, lines 129-141: parse the export
document, then drive the uploads.  The `i`-th surviving record's upload
outcome is supplied by `oracle i`. -/
def migrateModel (cfg : Config) (doc : List Item)
    (oracle : Nat → UploadOutcome) : Except String (Nat × Nat × List Event) :=
  match parse_wordpress_xml doc with
  | Except.error e => Except.error e
  | Except.ok posts =>
    Except.ok (upload_to_microcms cfg
      (posts.enum.map (fun ip => (ip.2, oracle ip.1))))

/-- `main`, lines 143-149: any exception escaping construction or
migration is printed and the process exits with status 1; a normal run
exits with status 0.  Returns the exit status and the event trace. -/
def mainModel (env : String → Option String) (fex : String → Bool)
    (doc : List Item) (oracle : Nat → UploadOutcome) : Nat × List Event :=
  match initMigrator env fex with
  | Except.error e => (1, [Event.println ("エラーが発生しました: " ++ e)])
  | Except.ok cfg =>
    match migrateModel cfg doc oracle with
    | Except.error e => (1, [Event.println ("エラーが発生しました: " ++ e)])
    | Except.ok r => (0, r.2.2)

/-- Inversion of a successful construction: every required variable was
truthy, the export file existed, and the configuration is exactly the
endpoint and header dictionary built in `__init__`. -/
theorem initMigrator_ok_inv (env : String → Option String) (fex : String → Bool)
    (cfg : Config) (h : initMigrator env fex = Except.ok cfg) :
    requiredKeys.filter (fun k => !pyTruthy (env k)) = [] ∧
    fex ((env "WP_XML_FILE").getD "") = true ∧
    cfg = { api_endpoint := "https://" ++ (env "MICROCMS_DOMAIN").getD "" ++
              (env "MICROCMS_CONTENT_API_PATH").getD "",
            headers := [("X-MICROCMS-API-KEY", (env "MICROCMS_API_KEY").getD ""),
                        ("Content-Type", "application/json")] } := by
  simp only [initMigrator] at h
  split_ifs at h with h1 h2
  cases h
  exact ⟨h1, h2, rfl⟩

/-- C9: if any required configuration variable is not set (or set to a
falsy value), or the export file is absent, the run prints a single
descriptive error line and exits with status 1 — no record is processed
and the trace contains no network request. -/
theorem C9_config (env : String → Option String) (fex : String → Bool)
    (doc : List Item) (oracle : Nat → UploadOutcome)
    (h : (∃ k, k ∈ requiredKeys ∧ pyTruthy (env k) = false) ∨
         fex ((env "WP_XML_FILE").getD "") = false) :
    (∃ msg, mainModel env fex doc oracle =
      (1, [Event.println ("エラーが発生しました: " ++ msg)])) ∧
    ((mainModel env fex doc oracle).2.all (fun e => !e.isHttpPost)) = true ∧
    (mainModel env fex doc oracle).1 = 1 := by
  have herr : ∃ msg, initMigrator env fex = Except.error msg := by
    cases hinit : initMigrator env fex with
    | error e => exact ⟨e, rfl⟩
    | ok cfg =>
      exfalso
      obtain ⟨hm, hf, _⟩ := initMigrator_ok_inv env fex cfg hinit
      cases h with
      | inl hk =>
        obtain ⟨k, hk1, hk2⟩ := hk
        have hkm : k ∈ requiredKeys.filter (fun k => !pyTruthy (env k)) :=
          List.mem_filter.mpr ⟨hk1, by simp [hk2]⟩
        rw [hm] at hkm
        exact absurd hkm (List.not_mem_nil k)
      | inr hf2 =>
        rw [hf] at hf2
        exact Bool.noConfusion hf2
  obtain ⟨msg, hmsg⟩ := herr
  have hmain : mainModel env fex doc oracle =
      (1, [Event.println ("エラーが発生しました: " ++ msg)]) := by
    unfold mainModel
    rw [hmsg]
  exact ⟨⟨msg, hmain⟩, by simp [hmain, Event.isHttpPost], by simp [hmain]⟩

/-- A complete, well-formed environment for the migration. -/
def envOk : String → Option String := fun k =>
  if k == "WP_XML_FILE" then some "export.xml"
  else if k == "MICROCMS_DOMAIN" then some "example.microcms.io"
  else if k == "MICROCMS_API_KEY" then some "secret-key"
  else if k == "MICROCMS_CONTENT_API_PATH" then some "/api/v1/articles"
  else if k == "MICROCMS_MEDIA_API_PATH" then some "/api/v1/media"
  else none

/-- `envOk` with the API key unset. -/
def envNoKey : String → Option String := fun k =>
  if k == "MICROCMS_API_KEY" then none else envOk k

/-- A filesystem on which every path exists. -/
def allFiles : String → Bool := fun _ => true

/-- An outcome oracle that is never consulted in the error-path tests. -/
def faultOracle : Nat → UploadOutcome := fun _ => UploadOutcome.exc "unused"

/-- C9 (witness): with `MICROCMS_API_KEY` unset the run exits 1 with one
configuration-error line and performs no network request. -/
theorem C9_witness :
    (∃ msg, mainModel envNoKey allFiles [] faultOracle =
      (1, [Event.println ("エラーが発生しました: " ++ msg)])) ∧
    ((mainModel envNoKey allFiles [] faultOracle).2.all
      (fun e => !e.isHttpPost)) = true ∧
    (mainModel envNoKey allFiles [] faultOracle).1 = 1 :=
  C9_config envNoKey allFiles [] faultOracle
    (Or.inl ⟨"MICROCMS_API_KEY", by decide, by decide⟩)

/-- The configuration `__init__` builds from `envOk`. -/
def cfgOk : Config :=
  { api_endpoint := "https://example.microcms.io/api/v1/articles",
    headers := [("X-MICROCMS-API-KEY", "secret-key"),
                ("Content-Type", "application/json")] }

/-- C8 (counterexample): the header dictionary built at lines 30-33 keys
the API key under `X-MICROCMS-API-KEY`, not `X-API-KEY` as the claim
states: in a concrete successful run no request carries any `X-API-KEY`
header. -/
theorem C8_counterexample :
    initMigrator envOk allFiles = Except.ok cfgOk ∧
    ((upload_to_microcms cfgOk [(recA, UploadOutcome.resp 201 "")]).2.2.all
      (fun e => match e with
        | Event.httpPost _ hs _ => hs.all (fun h => !(h.1 == "X-API-KEY"))
        | _ => true)) = true ∧
    ((upload_to_microcms cfgOk [(recA, UploadOutcome.resp 201 "")]).2.2.filter
      Event.isHttpPost).length = 1 := by
  exact ⟨rfl, rfl, rfl⟩

/-- Every network request a single step emits uses exactly the
configured endpoint and header dictionary. -/
theorem uploadStep_httpPost (cfg : Config) (p : Post) (o : UploadOutcome) :
    ∀ e ∈ (uploadStep cfg p o).2.2, ∀ u hs b,
      e = Event.httpPost u hs b → u = cfg.api_endpoint ∧ hs = cfg.headers := by
  intro e he u hs b heq
  subst heq
  cases o with
  | resp c bb =>
    by_cases hc : c = 201 <;> simp [uploadStep, hc] at he <;>
      exact ⟨he.1, he.2.1⟩
  | exc m =>
    simp [uploadStep] at he
    exact ⟨he.1, he.2.1⟩

/-- Every network request in a whole run uses exactly the configured
endpoint and header dictionary. -/
theorem upload_httpPost_fixed (cfg : Config) (rs : List (Post × UploadOutcome)) :
    ∀ e ∈ (upload_to_microcms cfg rs).2.2, ∀ u hs b,
      e = Event.httpPost u hs b → u = cfg.api_endpoint ∧ hs = cfg.headers := by
  induction rs with
  | nil =>
    intro e he
    simp [upload_to_microcms] at he
  | cons r rest ih =>
    intro e he u hs b heq
    simp only [upload_to_microcms, List.mem_append] at he
    cases he with
    | inl h1 => exact uploadStep_httpPost cfg r.1 r.2 e h1 u hs b heq
    | inr h2 => exact ih e h2 u hs b heq

/-- C8 (amended: the API-key header field is `X-MICROCMS-API-KEY`, as on
line 31, not `X-API-KEY`): under any successfully validated
configuration, the endpoint is `https://{domain}{contentApiPath}`, the
headers are exactly the API-key header and `Content-Type:
application/json`, every request of every run uses exactly these, a
response counts as success precisely when its status code is 201 —
any other code counts as one failure — and on a non-201 response the
response body is printed for the operator. -/
theorem C8_amended (env : String → Option String) (fex : String → Bool)
    (cfg : Config) (h : initMigrator env fex = Except.ok cfg) :
    cfg.api_endpoint = "https://" ++ (env "MICROCMS_DOMAIN").getD "" ++
      (env "MICROCMS_CONTENT_API_PATH").getD "" ∧
    cfg.headers = [("X-MICROCMS-API-KEY", (env "MICROCMS_API_KEY").getD ""),
                   ("Content-Type", "application/json")] ∧
    (∀ rs, ∀ e ∈ (upload_to_microcms cfg rs).2.2, ∀ u hs b,
      e = Event.httpPost u hs b → u = cfg.api_endpoint ∧ hs = cfg.headers) ∧
    (∀ p c b, (uploadStep cfg p (UploadOutcome.resp c b)).1 =
        (if c = 201 then 1 else 0) ∧
      (uploadStep cfg p (UploadOutcome.resp c b)).2.1 =
        (if c = 201 then 0 else 1)) ∧
    (∀ p c b, c ≠ 201 →
      Event.println ("エラー: " ++ b) ∈
        (uploadStep cfg p (UploadOutcome.resp c b)).2.2) := by
  obtain ⟨-, -, hcfg⟩ := initMigrator_ok_inv env fex cfg h
  subst hcfg
  refine ⟨rfl, rfl, fun rs => upload_httpPost_fixed _ rs, ?_, ?_⟩
  · intro p c b
    by_cases hc : c = 201 <;> simp [uploadStep, hc]
  · intro p c b hc
    simp [uploadStep, hc]

/-- C8 (witness): the amended theorem at the concrete environment
`envOk`, whose validated configuration is `cfgOk`. -/
theorem C8_witness :
    cfgOk.api_endpoint = "https://" ++ (envOk "MICROCMS_DOMAIN").getD "" ++
      (envOk "MICROCMS_CONTENT_API_PATH").getD "" ∧
    cfgOk.headers = [("X-MICROCMS-API-KEY", (envOk "MICROCMS_API_KEY").getD ""),
                     ("Content-Type", "application/json")] ∧
    (∀ rs, ∀ e ∈ (upload_to_microcms cfgOk rs).2.2, ∀ u hs b,
      e = Event.httpPost u hs b → u = cfgOk.api_endpoint ∧ hs = cfgOk.headers) ∧
    (∀ p c b, (uploadStep cfgOk p (UploadOutcome.resp c b)).1 =
        (if c = 201 then 1 else 0) ∧
      (uploadStep cfgOk p (UploadOutcome.resp c b)).2.1 =
        (if c = 201 then 0 else 1)) ∧
    (∀ p c b, c ≠ 201 →
      Event.println ("エラー: " ++ b) ∈
        (uploadStep cfgOk p (UploadOutcome.resp c b)).2.2) :=
  C8_amended envOk allFiles cfgOk rfl

/-- An item missing its title or body-content element makes the record
constructor raise (the `.text` access on `None`). -/
theorem makePost_missing (it : Item)
    (h : it.title = none ∨ it.content_encoded = none) :
    ∃ e, makePost it = Except.error e := by
  cases h with
  | inl h1 =>
    exact ⟨"AttributeError: NoneType object has no attribute text",
      by simp [makePost, h1, elemText]⟩
  | inr h2 =>
    cases ht : it.title with
    | none =>
      exact ⟨"AttributeError: NoneType object has no attribute text",
        by simp [makePost, ht, elemText]⟩
    | some te =>
      exact ⟨"AttributeError: NoneType object has no attribute text",
        by simp [makePost, ht, h2, elemText]⟩

/-- C10: if any item passing the type/status filter lacks its title
element or its `content:encoded` element, the whole parse aborts with an
error, and the top-level run then exits 1 without a single network
request; moreover a record is only ever built from a present
`content:encoded` element, whose text it copies — a null `content`
field can only come from an element that is present but empty. -/
theorem C10_missing_required (doc : List Item)
    (h : ∃ it, it ∈ doc ∧ isTarget it = true ∧
      (it.title = none ∨ it.content_encoded = none)) :
    (∃ e, parse_wordpress_xml doc = Except.error e) ∧
    (∀ it p, makePost it = Except.ok p →
      it.content_encoded = some { text := p.content }) ∧
    (∀ env fex oracle,
      (mainModel env fex doc oracle).1 = 1 ∧
      ((mainModel env fex doc oracle).2.all (fun e => !e.isHttpPost)) = true) := by
  have h1 : ∃ e, parse_wordpress_xml doc = Except.error e := by
    induction doc with
    | nil =>
      obtain ⟨it, hmem, -, -⟩ := h
      exact absurd hmem (List.not_mem_nil it)
    | cons a rest ih =>
      obtain ⟨it, hmem, htar, hmiss⟩ := h
      rcases List.mem_cons.mp hmem with rfl | hmem2
      · obtain ⟨e, hme⟩ := makePost_missing it hmiss
        refine ⟨e, ?_⟩
        cases hp : parse_wordpress_xml rest <;>
          simp [parse_wordpress_xml, htar, hme, hp]
      · obtain ⟨e, he⟩ := ih ⟨it, hmem2, htar, hmiss⟩
        by_cases hta : isTarget a
        · cases hma : makePost a with
          | error ea => exact ⟨ea, by simp [parse_wordpress_xml, hta, hma]⟩
          | ok pa => exact ⟨e, by simp [parse_wordpress_xml, hta, hma, he]⟩
        · exact ⟨e, by simp [parse_wordpress_xml, hta, he]⟩
  refine ⟨h1, ?_, ?_⟩
  · intro it p hp
    cases ht : it.title with
    | none => simp [makePost, ht, elemText] at hp
    | some te =>
      cases hc : it.content_encoded with
      | none => simp [makePost, ht, hc, elemText] at hp
      | some ce =>
        cases hd : it.post_date with
        | none => simp [makePost, ht, hc, hd, elemText] at hp
        | some de =>
          simp [makePost, ht, hc, hd, elemText] at hp
          rw [← hp]
  · intro env fex oracle
    obtain ⟨e, he⟩ := h1
    cases hinit : initMigrator env fex with
    | error m => simp [mainModel, hinit, Event.isHttpPost]
    | ok cfg => simp [mainModel, migrateModel, hinit, he, Event.isHttpPost]

/-- C10 (witness): the theorem at a one-item document whose published
post lacks its `content:encoded` element. -/
theorem C10_witness :
    (∃ e, parse_wordpress_xml [itemNoContent] = Except.error e) ∧
    (∀ it p, makePost it = Except.ok p →
      it.content_encoded = some { text := p.content }) ∧
    (∀ env fex oracle,
      (mainModel env fex [itemNoContent] oracle).1 = 1 ∧
      ((mainModel env fex [itemNoContent] oracle).2.all
        (fun e => !e.isHttpPost)) = true) :=
  C10_missing_required [itemNoContent]
    ⟨itemNoContent, List.mem_singleton.mpr rfl, rfl, Or.inr rfl⟩
